import Mathlib

/-!
Shallow embedding of the authentication core of the epic-stack repository
(`src/app/utils/auth.server.ts`, the drizzle schema in `src/drizzle.config.ts`
and its generated SQL, and `profile.change-email.server.tsx`), together with
theorems settling the frozen claims about it.

The relational store is a record of row lists, one per table.  Timestamps are
naturals (milliseconds since epoch, as in JavaScript `Date.now()`).  Drizzle's
`findFirst` is `List.find?`; an `insert` appends (checking the schema's unique
indexes); an `update` maps over the table; `db.transaction` is `runTransaction`
below, which restores the incoming state when the body throws.
-/

namespace EpicAuth

/-- A row of the `user` table (id, unique email, unique username, name). -/
structure UserRow where
  id : String
  email : String
  username : String
  name : Option String
deriving Repr, DecidableEq

/-- A row of the `password` table: `hash`, `user_id` (FK to user, cascade). -/
structure PasswordRow where
  hash : String
  userId : String
deriving Repr, DecidableEq

/-- A row of the `session` table: id, `expiration_date`, `user_id`. -/
structure SessionRow where
  id : String
  expirationDate : Nat
  userId : String
deriving Repr, DecidableEq

/-- A row of the `connection` table; (providerName, providerId) is unique. -/
structure ConnectionRow where
  id : String
  providerName : String
  providerId : String
  userId : String
deriving Repr, DecidableEq

/-- A row of the `role` table (unique name). -/
structure RoleRow where
  id : String
  name : String
deriving Repr, DecidableEq

/-- A row of the `role_user` join table. -/
structure RoleUserRow where
  roleId : String
  userId : String
deriving Repr, DecidableEq

/-- A row of the `user_image` table: blob data owned by one user. -/
structure UserImageRow where
  id : String
  contentType : String
  blob : String
  userId : String
deriving Repr, DecidableEq

/-- A row of the `note` table, owned by a user (`owner_id`, cascade). -/
structure NoteRow where
  id : String
  title : String
  content : String
  ownerId : String
deriving Repr, DecidableEq

/-- A row of the `note_image` table, owned by a note (`note_id`, cascade). -/
structure NoteImageRow where
  id : String
  contentType : String
  blob : String
  noteId : String
deriving Repr, DecidableEq

/-- The relational store: one list of rows per table of the schema. -/
structure DbState where
  users : List UserRow
  passwords : List PasswordRow
  sessions : List SessionRow
  connections : List ConnectionRow
  roles : List RoleRow
  rolesToUsers : List RoleUserRow
  userImages : List UserImageRow
  notes : List NoteRow
  noteImages : List NoteImageRow
deriving Repr, DecidableEq

/-- JavaScript `String.prototype.toLowerCase`, character by character. -/
def toLowerCase (s : String) : String :=
  ⟨s.data.map Char.toLower⟩

/-- Models the external bcrypt library (a dependency, not repository code):
hashing is deterministic here (the salt is abstracted away) and `bcryptCompare`
succeeds exactly on the hash of the same plaintext. -/
def bcryptHash (plaintext : String) : String :=
  "$2a$10$" ++ plaintext

/-- Models `bcrypt.compare(plaintext, hash)`. -/
def bcryptCompare (plaintext hash : String) : Bool :=
  hash == bcryptHash plaintext

/-- Source `getPasswordHash` from auth.server.ts: `bcrypt.hash(password, 10)`. -/
def getPasswordHash (password : String) : String :=
  bcryptHash password

/-- Source constant `SESSION_EXPIRATION_TIME = 1000 * 60 * 60 * 24 * 30` (30 days in ms). -/
def SESSION_EXPIRATION_TIME : Nat := 1000 * 60 * 60 * 24 * 30

/-- Source `getSessionExpirationDate()` at clock instant `now`:
`new Date(Date.now() + SESSION_EXPIRATION_TIME)`. -/
def getSessionExpirationDate (now : Nat) : Nat :=
  now + SESSION_EXPIRATION_TIME

/-- A thrown remix `redirect` response: its location and whether its
`set-cookie` header destroys the auth cookie session. -/
structure Redirect where
  location : String
  destroysAuthCookie : Bool
deriving Repr, DecidableEq

/-- Embeds `db.transaction`: runs the body on the current state; if the body throws,
the transaction rolls back and the store is left exactly as it was. -/
def runTransaction {α : Type} (body : DbState → Except String (α × DbState))
    (st : DbState) : Except String α × DbState :=
  match body st with
  | .ok (a, st') => (.ok a, st')
  | .error e => (.error e, st)

/-- Source `verifyUserPassword(where, password)` from auth.server.ts: `findFirst` a
user by the caller's selector, join its password row (`with: { password }`,
i.e. the password row whose `userId` is the user's id), then
`bcrypt.compare`; returns the user's id on success and null otherwise. -/
def verifyUserPassword (whereSel : UserRow → Bool) (password : String)
    (st : DbState) : Option String :=
  match st.users.find? whereSel with
  | none => none
  | some user =>
    match st.passwords.find? (fun p => p.userId == user.id) with
    | none => none
    | some pw =>
      if bcryptCompare password pw.hash then some user.id else none

/-- The session query inside `getUserId` (auth.server.ts lines 47–53):
`findFirst` on sessions with `id = sessionId AND expirationDate > now`,
joined with the owning user's id; yields a user id only when both the
session row (still strictly unexpired) and its user exist. -/
def resolveSession (st : DbState) (sessionId : String) (now : Nat) :
    Option String :=
  match st.sessions.find?
      (fun s => s.id == sessionId && decide (now < s.expirationDate)) with
  | none => none
  | some s => (st.users.find? (fun u => u.id == s.userId)).map (fun u => u.id)

/-- Source `getUserId(request)` from auth.server.ts.  The auth cookie session's
`sessionId` value is `sessionId?` (none when the cookie carries no value; the
JavaScript falsiness test also treats an empty string as absent).  Returns
the pair of the outcome (`ok` of the nullable user id, or the thrown
redirect) and the store, which this function never mutates. -/
def getUserId (sessionId? : Option String) (st : DbState) (now : Nat) :
    Except Redirect (Option String) × DbState :=
  match sessionId? with
  | none => (.ok none, st)
  | some sid =>
    if sid == "" then (.ok none, st)
    else
      match resolveSession st sid now with
      | none => (.error ⟨"/", true⟩, st)
      | some uid => (.ok (some uid), st)

/-- Embeds `tx.insert(users).values({...}).returning({id})`: SQLite enforces the
schema's unique indexes on `email` and `username` atomically with the insert
(a violation throws and aborts the enclosing transaction). -/
def insertUser (newId email username : String) (name : Option String)
    (st : DbState) : Except String (UserRow × DbState) :=
  if st.users.any (fun u => u.email == email) then
    .error "UNIQUE constraint failed: user.email"
  else if st.users.any (fun u => u.username == username) then
    .error "UNIQUE constraint failed: user.username"
  else
    let u : UserRow := ⟨newId, email, username, name⟩
    .ok (u, { st with users := st.users ++ [u] })

/-- Embeds `tx.insert(connections).values({...})`: SQLite enforces the unique index
on (provider_name, provider_id) atomically with the insert. -/
def insertConnection (newId providerName providerId userId : String)
    (st : DbState) : Except String DbState :=
  if st.connections.any
      (fun c => c.providerName == providerName && c.providerId == providerId) then
    .error "UNIQUE constraint failed: connection.provider_name, connection.provider_id"
  else
    .ok { st with
          connections := st.connections ++ [ConnectionRow.mk newId providerName providerId userId] }

/-- The summary `returning({id, expirationDate})` of the created session. -/
structure SessionResult where
  id : String
  expirationDate : Nat
deriving Repr, DecidableEq

/-- The transaction body of `resetUserPassword` (auth.server.ts 123–144):
`findFirst` the user by username, `invariant(user)` (throwing when absent),
then `tx.update(passwords).set({hash, userId: user.id})` — the update carries
NO where-clause, so every row of the password table receives the new hash and
the located user's id. -/
def resetUserPasswordTx (username password : String) (st : DbState) :
    Except String (UserRow × DbState) :=
  let hashedPassword := getPasswordHash password
  match st.users.find? (fun u => u.username == username) with
  | none => .error "User not found"
  | some user =>
    .ok (user,
      { st with passwords := st.passwords.map (fun _p => ⟨hashedPassword, user.id⟩) })

/-- Source `resetUserPassword({username, password})`: the body above inside
`db.transaction`. -/
def resetUserPassword (username password : String) (st : DbState) :
    Except String UserRow × DbState :=
  runTransaction (resetUserPasswordTx username password) st

/-- The transaction body of `signup` (auth.server.ts 160–202): insert the
user with lowercased email and username, `findFirst` the role named "user",
`invariant(role)` (throwing — and so rolling back — when the seed role is
missing), insert the password row, the role assignment, and a session
expiring `SESSION_EXPIRATION_TIME` after `now`. -/
def signupTx (newUserId newSessionId email username : String)
    (name : Option String) (hashedPassword : String) (now : Nat)
    (st : DbState) : Except String (SessionResult × DbState) :=
  match insertUser newUserId (toLowerCase email) (toLowerCase username) name st with
  | .error e => .error e
  | .ok (user, st1) =>
    match st1.roles.find? (fun r => r.name == "user") with
    | none => .error "Failed to find user role"
    | some role =>
      let st2 := { st1 with passwords := st1.passwords ++ [PasswordRow.mk hashedPassword user.id] }
      let st3 := { st2 with rolesToUsers := st2.rolesToUsers ++ [RoleUserRow.mk role.id user.id] }
      let sess : SessionRow := ⟨newSessionId, getSessionExpirationDate now, user.id⟩
      let st4 := { st3 with sessions := st3.sessions ++ [sess] }
      .ok (⟨sess.id, sess.expirationDate⟩, st4)

/-- Source `signup({email, username, password, name})`: hashes the password, then
runs `signupTx` inside `db.transaction`.  Fresh row ids (`createId()`) are
passed in as `newUserId`/`newSessionId`. -/
def signup (newUserId newSessionId email username : String)
    (name : Option String) (password : String) (now : Nat) (st : DbState) :
    Except String SessionResult × DbState :=
  runTransaction
    (signupTx newUserId newSessionId email username name (getPasswordHash password) now) st

/-- The `{contentType, blob}` result of the external `downloadFile(url)`. -/
structure FileData where
  contentType : String
  blob : String
deriving Repr, DecidableEq

/-- The transaction body of `signupWithConnection` (auth.server.ts 222–271):
insert the user, find the "user" role, insert the role assignment and the
connection, then — when an image URL was supplied — `await downloadFile(url)`
INSIDE the transaction with no catch, so a failed download throws and aborts
the whole transaction; finally insert the session.  `downloadResult` is the
outcome of the external download. -/
def signupWithConnectionTx (newUserId newConnectionId newImageId newSessionId
    email username : String) (name : Option String)
    (providerId providerName : String) (imageUrl : Option String)
    (downloadResult : Except String FileData) (now : Nat) (st : DbState) :
    Except String (SessionResult × DbState) :=
  match insertUser newUserId (toLowerCase email) (toLowerCase username) name st with
  | .error e => .error e
  | .ok (user, st1) =>
    match st1.roles.find? (fun r => r.name == "user") with
    | none => .error "Failed to find user role"
    | some role =>
      let st2 := { st1 with rolesToUsers := st1.rolesToUsers ++ [RoleUserRow.mk role.id user.id] }
      match insertConnection newConnectionId providerName providerId user.id st2 with
      | .error e => .error e
      | .ok st3 =>
        let st4? : Except String DbState :=
          match imageUrl with
          | none => .ok st3
          | some _ =>
            match downloadResult with
            | .error e => .error e
            | .ok file =>
              .ok { st3 with
                    userImages := st3.userImages ++
                      [UserImageRow.mk newImageId file.contentType file.blob user.id] }
        match st4? with
        | .error e => .error e
        | .ok st4 =>
          let sess : SessionRow := ⟨newSessionId, getSessionExpirationDate now, user.id⟩
          let st5 := { st4 with sessions := st4.sessions ++ [sess] }
          .ok (⟨sess.id, sess.expirationDate⟩, st5)

/-- Source `signupWithConnection({...})`: the body above inside `db.transaction`. -/
def signupWithConnection (newUserId newConnectionId newImageId newSessionId
    email username : String) (name : Option String)
    (providerId providerName : String) (imageUrl : Option String)
    (downloadResult : Except String FileData) (now : Nat) (st : DbState) :
    Except String SessionResult × DbState :=
  runTransaction
    (signupWithConnectionTx newUserId newConnectionId newImageId newSessionId
      email username name providerId providerName imageUrl downloadResult now) st

/-- Models `safeRedirect` from the external remix-utils library: falls back
to '/' unless the value is a same-origin path (starts with '/' but not with
'//' or '/\'). -/
def safeRedirect (toUrl : String) : String :=
  match toUrl.data with
  | '/' :: '/' :: _ => "/"
  | '/' :: '\\' :: _ => "/"
  | '/' :: _ => toUrl
  | _ => "/"

/-- Source `logout({request, redirectTo})` from auth.server.ts 276–307: read the
cookie session's `sessionId`; when present, fire a best-effort delete of the
session row whose rejection is discarded by `.catch(() => \x7b\x7d)`
(`deleteFails` is whether the store rejects that delete); then always throw
`redirect(safeRedirect(redirectTo))` with a `set-cookie` header destroying
the auth cookie session. -/
def logout (sessionId? : Option String) (deleteFails : Bool)
    (redirectTo : String) (st : DbState) : Redirect × DbState :=
  let st' :=
    match sessionId? with
    | none => st
    | some sid =>
      if sid == "" then st
      else if deleteFails then st
      else { st with sessions := st.sessions.filter (fun s => !(s.id == sid)) }
  (⟨safeRedirect redirectTo, true⟩, st')

/-- Deleting a user row, following the `ON DELETE cascade` foreign keys of
the generated SQL schema: `password`, `session`, `connection`, `role_user`,
`user_image` and `note` all reference `user(id)` with cascade, and
`note_image` references `note(id)` with cascade, so images of the deleted
user's notes are removed transitively. -/
def deleteUser (uid : String) (st : DbState) : DbState :=
  { users := st.users.filter (fun u => !(u.id == uid))
    passwords := st.passwords.filter (fun p => !(p.userId == uid))
    sessions := st.sessions.filter (fun s => !(s.userId == uid))
    connections := st.connections.filter (fun c => !(c.userId == uid))
    roles := st.roles
    rolesToUsers := st.rolesToUsers.filter (fun ru => !(ru.userId == uid))
    userImages := st.userImages.filter (fun i => !(i.userId == uid))
    notes := st.notes.filter (fun n => !(n.ownerId == uid))
    noteImages := st.noteImages.filter (fun ni =>
      !((st.notes.filter (fun n => n.ownerId == uid)).any
        (fun n => n.id == ni.noteId))) }

/-- An email handed to the external `sendEmail` collaborator. -/
structure EmailMsg where
  toAddr : String
  subject : String
deriving Repr, DecidableEq

/-- The non-throwing outcomes of the change-email `handleVerification`. -/
inductive ChangeEmailOutcome where
  | badRequest
  | success (newEmail : String)
deriving Repr, DecidableEq

/-- Source `handleVerification` from profile.change-email.server.tsx 16–76.
`recentlyVerified` is the outcome of `requireRecentVerification(request)`
(modelled from the spec: that guard lives in verify.server.ts, which is not
among the sources; per the spec it fails — throws — unless a verification of
the required type was completed within a short trailing window).
`pendingNewEmail` is the verify-session cookie's pending new-email value.
When the guard passes and a pending value exists: read the acting user's
current email (`preUpdateUser`), update that user's email to the new value,
and `sendEmail` the change notice to `preUpdateUser.email` — the address the
account had BEFORE the update.  Returns the outcome, the new store, and the
emails sent. -/
def handleChangeEmailVerification (recentlyVerified : Bool)
    (pendingNewEmail : Option String) (targetUserId : String) (st : DbState) :
    Except String (ChangeEmailOutcome × DbState × List EmailMsg) :=
  if !recentlyVerified then .error "requireRecentVerification"
  else
    match pendingNewEmail with
    | none => .ok (.badRequest, st, [])
    | some newEmail =>
      match st.users.find? (fun u => u.id == targetUserId) with
      | none => .error "User should exist"
      | some preUpdateUser =>
        let st' := { st with
          users := st.users.map
            (fun u => if u.id == targetUserId then { u with email := newEmail } else u) }
        .ok (.success newEmail, st',
          [EmailMsg.mk preUpdateUser.email "Epic Stack email changed"])

/-- A store holding only the seeded "user" role. -/
def stSeed : DbState :=
  { users := [], passwords := [], sessions := [], connections := [],
    roles := [⟨"r1", "user"⟩], rolesToUsers := [], userImages := [],
    notes := [], noteImages := [] }

/-- An entirely empty store. -/
def stEmpty : DbState :=
  { users := [], passwords := [], sessions := [], connections := [],
    roles := [], rolesToUsers := [], userImages := [],
    notes := [], noteImages := [] }

/-- Two users, each owning a password row hashed from their own password. -/
def stTwoUsers : DbState :=
  { users := [⟨"u1", "alice@x.com", "alice", none⟩,
              ⟨"u2", "bob@x.com", "bob", none⟩],
    passwords := [⟨getPasswordHash "pw-alice", "u1"⟩,
                  ⟨getPasswordHash "pw-bob", "u2"⟩],
    sessions := [], connections := [], roles := [], rolesToUsers := [],
    userImages := [], notes := [], noteImages := [] }

/-- The store `stTwoUsers` after Alice's email is changed to new@x.com. -/
def stTwoUsersAfterEmailChange : DbState :=
  { stTwoUsers with
    users := [⟨"u1", "new@x.com", "alice", none⟩,
              ⟨"u2", "bob@x.com", "bob", none⟩] }

/-- The store produced by the concrete signup of the C5 witness. -/
def stSeedAfterSignup : DbState :=
  { users := [⟨"u1", "a@b.com", "alice", none⟩],
    passwords := [⟨getPasswordHash "pw", "u1"⟩],
    sessions := [⟨"s1", 2592000000, "u1"⟩],
    connections := [], roles := [⟨"r1", "user"⟩],
    rolesToUsers := [⟨"r1", "u1"⟩], userImages := [], notes := [],
    noteImages := [] }

/-- One user owning one session expiring at instant 1000. -/
def stOneSession : DbState :=
  { users := [⟨"u1", "alice@x.com", "alice", none⟩],
    passwords := [], sessions := [⟨"s1", 1000, "u1"⟩], connections := [],
    roles := [], rolesToUsers := [], userImages := [],
    notes := [], noteImages := [] }

/-- Alice owns one row in every dependent table (including a note with an
image); Bob owns a second note with its own image. -/
def stCascade : DbState :=
  { users := [⟨"u1", "alice@x.com", "alice", none⟩,
              ⟨"u2", "bob@x.com", "bob", none⟩],
    passwords := [⟨getPasswordHash "pw-alice", "u1"⟩],
    sessions := [⟨"s1", 1000, "u1"⟩],
    connections := [⟨"c1", "github", "gh-1", "u1"⟩],
    roles := [⟨"r1", "user"⟩],
    rolesToUsers := [⟨"r1", "u1"⟩],
    userImages := [⟨"ui1", "image/png", "blob1", "u1"⟩],
    notes := [⟨"n1", "t1", "c1", "u1"⟩, ⟨"n2", "t2", "c2", "u2"⟩],
    noteImages := [⟨"ni1", "image/png", "blob2", "n1"⟩,
                   ⟨"ni2", "image/png", "blob3", "n2"⟩] }

end EpicAuth

namespace EpicAuth

/-- C1: the claim states that `resetUserPassword` overwrites only the located
user's Password row and leaves every other user's row unchanged.  The update
in the source carries no where-clause, so the call for "alice" also rewrites
Bob's password row — both its hash (to Alice's new hash) and its `userId`
(to Alice's id).  This closed theorem evaluates the code at that failing
input: before the call Bob's row is `⟨hash "pw-bob", "u2"⟩`, afterwards every
row is `⟨hash "newpw", "u1"⟩`. -/
theorem resetUserPassword_overwrites_all_rows :
    stTwoUsers.passwords =
      [⟨getPasswordHash "pw-alice", "u1"⟩, ⟨getPasswordHash "pw-bob", "u2"⟩] ∧
    (resetUserPassword "alice" "newpw" stTwoUsers).2.passwords =
      [⟨getPasswordHash "newpw", "u1"⟩, ⟨getPasswordHash "newpw", "u1"⟩] := by
  exact ⟨rfl, rfl⟩

/-- C2 counterexample: the claim states that when the avatar download fails,
`signupWithConnection` still completes and creates the User, role assignment,
Connection and Session rows.  At this concrete input (a store seeded with the
"user" role, an avatar URL supplied, the download failing) the download error
propagates out of the transaction and the store is left exactly as it was —
no session is returned and no rows exist. -/
theorem signupWithConnection_download_failure_cex :
    signupWithConnection "u1" "c1" "i1" "s1" "a@b.com" "alice" none "pid1"
        "github" (some "https://example.com/a.png") (.error "download failed")
        0 stSeed =
      (.error "download failed", stSeed) ∧
    stSeed.users = [] ∧ stSeed.sessions = [] ∧ stSeed.connections = [] := by
  exact ⟨rfl, rfl, rfl, rfl⟩

/-- C9: `logout` always produces the client-visible logout — the redirect to
`safeRedirect redirectTo` whose header destroys the auth cookie session —
whatever the cookie holds and whether or not the store rejects the session
delete; a failing delete is swallowed (the outcome is identical to the
succeeding one, and the store is simply left untouched). -/
theorem logout_always_redirects :
    ∀ (sessionId? : Option String) (deleteFails : Bool) (redirectTo : String)
      (st : DbState),
      (logout sessionId? deleteFails redirectTo st).1 =
        ⟨safeRedirect redirectTo, true⟩ ∧
      (logout sessionId? deleteFails redirectTo st).1 =
        (logout sessionId? false redirectTo st).1 ∧
      (logout sessionId? true redirectTo st).2 = st := by
  intro sessionId? deleteFails redirectTo st
  refine ⟨rfl, rfl, ?_⟩
  rcases sessionId? with _ | sid
  · rfl
  · simp only [logout]
    split
    · rfl
    · rfl

/-- C9 witness: the theorem applied at a concrete input where the store
rejects the delete. -/
theorem logout_always_redirects_witness :
    (logout (some "s1") true "/" stTwoUsers).1 = ⟨"/", true⟩ ∧
    (logout (some "s1") true "/" stTwoUsers).2 = stTwoUsers := by
  have h := logout_always_redirects (some "s1") true "/" stTwoUsers
  exact ⟨h.1.trans (by decide), h.2.2⟩

/-- C10: `getUserId` never mutates the store (in particular it never deletes
the Session row); with no sessionId in the cookie (the falsiness test also
treats an empty value as absent) it returns null; with a sessionId that does
not resolve to a live session it does not return null but throws the redirect
to '/' whose header destroys the auth cookie session. -/
theorem getUserId_redirects_on_invalid_session :
    ∀ (st : DbState) (now : Nat),
      getUserId none st now = (Except.ok none, st) ∧
      (∀ sessionId? : Option String, (getUserId sessionId? st now).2 = st) ∧
      (∀ sid : String, sid ≠ "" → resolveSession st sid now = none →
        getUserId (some sid) st now = (Except.error ⟨"/", true⟩, st)) ∧
      (∀ sid : String, sid ≠ "" →
        (getUserId (some sid) st now).1 ≠ Except.ok none) := by
  intro st now
  refine ⟨rfl, ?_, ?_, ?_⟩
  · intro sessionId?
    rcases sessionId? with _ | sid
    · rfl
    · simp only [getUserId]
      split
      · rfl
      · rcases hres : resolveSession st sid now with _ | uid <;> simp [hres]
  · intro sid hne hres
    simp [getUserId, hne, hres]
  · intro sid hne
    simp only [getUserId]
    rcases hres : resolveSession st sid now with _ | uid <;>
      simp [hne, hres]

/-- C10 witness: the theorem applied at a concrete store where the cookie's
sessionId matches no session. -/
theorem getUserId_redirects_on_invalid_session_witness :
    getUserId (some "nope") stOneSession 500 =
      (Except.error ⟨"/", true⟩, stOneSession) :=
  (getUserId_redirects_on_invalid_session stOneSession 500).2.2.1 "nope"
    (by decide) (by rfl)

/-- C4: session resolution (the query `getUserId` runs: `findFirst` on
sessions with `id = sessionId AND expirationDate > now`, joined with the
owning user) yields the owning user's id exactly while `now` is strictly
before the session's expiration instant; at or after that instant it yields
no user id.  `huniq` reflects the primary key on `session.id`, `huser` the
foreign key to the owning user. -/
theorem resolveSession_valid_iff (st : DbState) (s : SessionRow) (now : Nat)
    (hmem : s ∈ st.sessions)
    (huniq : ∀ s' ∈ st.sessions, s'.id = s.id → s' = s)
    (huser : (st.users.find? (fun u => u.id == s.userId)).isSome) :
    (resolveSession st s.id now = some s.userId ↔ now < s.expirationDate) ∧
    (s.expirationDate ≤ now → resolveSession st s.id now = none) := by
  constructor
  · constructor
    · intro h
      unfold resolveSession at h
      rcases hf : st.sessions.find?
          (fun s' => s'.id == s.id && decide (now < s'.expirationDate))
        with _ | s''
      · rw [hf] at h
        simp at h
      · have hpred := List.find?_some hf
        have hmem'' := List.mem_of_find?_eq_some hf
        simp only [Bool.and_eq_true, beq_iff_eq, decide_eq_true_eq] at hpred
        have : s'' = s := huniq s'' hmem'' hpred.1
        rw [this] at hpred
        exact hpred.2
    · intro hlt
      have hps : (fun s' : SessionRow =>
          s'.id == s.id && decide (now < s'.expirationDate)) s = true := by
        simp [hlt]
      have hsome : (st.sessions.find?
          (fun s' => s'.id == s.id && decide (now < s'.expirationDate))).isSome :=
        List.find?_isSome.mpr ⟨s, hmem, hps⟩
      obtain ⟨s'', hf⟩ := Option.isSome_iff_exists.mp hsome
      have hpred := List.find?_some hf
      simp only [Bool.and_eq_true, beq_iff_eq, decide_eq_true_eq] at hpred
      have hs : s'' = s := huniq s'' (List.mem_of_find?_eq_some hf) hpred.1
      obtain ⟨u, hu⟩ := Option.isSome_iff_exists.mp huser
      have huid : u.id = s.userId := by
        have := List.find?_some hu
        simpa using this
      unfold resolveSession
      rw [hf, hs]
      show (st.users.find? (fun u => u.id == s.userId)).map (fun u => u.id) =
        some s.userId
      rw [hu]
      simp [huid]
  · intro hle
    have hnone : st.sessions.find?
        (fun s' => s'.id == s.id && decide (now < s'.expirationDate)) = none := by
      rw [List.find?_eq_none]
      intro s' hmem' hp
      simp only [Bool.and_eq_true, beq_iff_eq, decide_eq_true_eq] at hp
      have : s' = s := huniq s' hmem' hp.1
      rw [this] at hp
      exact absurd hp.2 (Nat.not_lt.mpr hle)
    unfold resolveSession
    rw [hnone]

/-- C4 witness: the theorem applied to the one-session store, showing the
resolution succeed strictly before the expiration instant and fail at it. -/
theorem resolveSession_valid_iff_witness :
    resolveSession stOneSession "s1" 500 = some "u1" ∧
    resolveSession stOneSession "s1" 1000 = none := by
  have h500 := resolveSession_valid_iff stOneSession ⟨"s1", 1000, "u1"⟩ 500
    (by decide) (by decide) (by decide)
  have h1000 := resolveSession_valid_iff stOneSession ⟨"s1", 1000, "u1"⟩ 1000
    (by decide) (by decide) (by decide)
  exact ⟨h500.1.mpr (by decide), h1000.2 (by decide)⟩

/-- Unfolding of `verifyUserPassword` into `Option.bind` form. -/
theorem verifyUserPassword_eq_bind (whereSel : UserRow → Bool)
    (password : String) (st : DbState) :
    verifyUserPassword whereSel password st =
      (st.users.find? whereSel).bind (fun user =>
        (st.passwords.find? (fun p => p.userId == user.id)).bind (fun pw =>
          if bcryptCompare password pw.hash then some user.id else none)) := by
  rcases hu : st.users.find? whereSel with _ | user
  · simp [verifyUserPassword, hu]
  · rcases hp : st.passwords.find? (fun p => p.userId == user.id) with _ | pw
    · simp [verifyUserPassword, hu, hp]
    · simp [verifyUserPassword, hu, hp]

/-- C3: `verifyUserPassword` returns a user id exactly when the selector
locates a user, that user has a password row, and the plaintext verifies
against the stored hash; in each of the three failure cases (no matching
user, no password row, hash mismatch) the returned value is the same `none`
— the cases are indistinguishable in the result — and the function is total
(it never throws). -/
theorem verifyUserPassword_spec :
    ∀ (whereSel : UserRow → Bool) (password : String) (st : DbState),
      (∀ uid : String,
        verifyUserPassword whereSel password st = some uid ↔
          ∃ user pw, st.users.find? whereSel = some user ∧
            st.passwords.find? (fun p => p.userId == user.id) = some pw ∧
            bcryptCompare password pw.hash = true ∧ uid = user.id) ∧
      (st.users.find? whereSel = none →
        verifyUserPassword whereSel password st = none) ∧
      (∀ user, st.users.find? whereSel = some user →
        st.passwords.find? (fun p => p.userId == user.id) = none →
        verifyUserPassword whereSel password st = none) ∧
      (∀ user pw, st.users.find? whereSel = some user →
        st.passwords.find? (fun p => p.userId == user.id) = some pw →
        bcryptCompare password pw.hash = false →
        verifyUserPassword whereSel password st = none) := by
  intro whereSel password st
  refine ⟨?_, ?_, ?_, ?_⟩
  · intro uid
    rw [verifyUserPassword_eq_bind]
    constructor
    · intro h
      rw [Option.bind_eq_some] at h
      obtain ⟨user, hu, h⟩ := h
      rw [Option.bind_eq_some] at h
      obtain ⟨pw, hp, h⟩ := h
      by_cases hc : bcryptCompare password pw.hash = true
      · rw [if_pos hc] at h
        exact ⟨user, pw, hu, hp, hc, (Option.some.inj h).symm⟩
      · rw [if_neg hc] at h
        exact absurd h (by simp)
    · rintro ⟨user, pw, hu, hp, hc, rfl⟩
      rw [hu]
      simp only [Option.some_bind]
      rw [hp]
      simp only [Option.some_bind]
      rw [if_pos hc]
  · intro hu
    rw [verifyUserPassword_eq_bind, hu]
    rfl
  · intro user hu hp
    rw [verifyUserPassword_eq_bind, hu]
    simp only [Option.some_bind]
    rw [hp]
    rfl
  · intro user pw hu hp hc
    rw [verifyUserPassword_eq_bind, hu]
    simp only [Option.some_bind]
    rw [hp]
    simp only [Option.some_bind]
    rw [if_neg (by simp [hc])]

/-- C3 witness: the theorem applied to a concrete store — Alice's id comes
back for her own password, and each null case yields `none`. -/
theorem verifyUserPassword_spec_witness :
    verifyUserPassword (fun u => u.username == "alice") "pw-alice" stTwoUsers =
      some "u1" ∧
    verifyUserPassword (fun u => u.username == "carol") "pw-alice" stTwoUsers =
      none ∧
    verifyUserPassword (fun u => u.username == "alice") "wrong" stTwoUsers =
      none := by
  have h := verifyUserPassword_spec (fun u => u.username == "alice")
    "pw-alice" stTwoUsers
  have hnone := (verifyUserPassword_spec (fun u => u.username == "carol")
    "pw-alice" stTwoUsers).2.1 (by decide)
  have hbad := (verifyUserPassword_spec (fun u => u.username == "alice")
    "wrong" stTwoUsers).2.2.2 ⟨"u1", "alice@x.com", "alice", none⟩
    ⟨getPasswordHash "pw-alice", "u1"⟩ (by decide) (by decide) (by decide)
  refine ⟨(h.1 "u1").mpr ⟨⟨"u1", "alice@x.com", "alice", none⟩,
    ⟨getPasswordHash "pw-alice", "u1"⟩, by decide, by decide, by decide, rfl⟩,
    hnone, hbad⟩

/-- What a successful `insertUser` produced. -/
theorem insertUser_ok (newId email username : String) (name : Option String)
    (st : DbState) (user : UserRow) (st1 : DbState)
    (h : insertUser newId email username name st = .ok (user, st1)) :
    user = ⟨newId, email, username, name⟩ ∧
    st1 = { st with users := st.users ++ [⟨newId, email, username, name⟩] } := by
  unfold insertUser at h
  split at h
  · exact absurd h (by simp)
  · split at h
    · exact absurd h (by simp)
    · simp only [Except.ok.injEq, Prod.mk.injEq] at h
      exact ⟨h.1.symm, h.2.symm⟩

/-- What a successful `signupTx` produced. -/
theorem signupTx_ok_spec (newUserId newSessionId email username : String)
    (name : Option String) (hashedPassword : String) (now : Nat)
    (st : DbState) (res : SessionResult) (st' : DbState)
    (h : signupTx newUserId newSessionId email username name hashedPassword
      now st = .ok (res, st')) :
    ∃ role, role ∈ st.roles ∧ role.name = "user" ∧
      UserRow.mk newUserId (toLowerCase email) (toLowerCase username) name ∈ st'.users ∧
      PasswordRow.mk hashedPassword newUserId ∈ st'.passwords ∧
      RoleUserRow.mk role.id newUserId ∈ st'.rolesToUsers ∧
      SessionRow.mk newSessionId (now + SESSION_EXPIRATION_TIME) newUserId ∈
        st'.sessions ∧
      res = ⟨newSessionId, now + SESSION_EXPIRATION_TIME⟩ := by
  unfold signupTx at h
  split at h
  · exact absurd h (by simp)
  · split at h
    · exact absurd h (by simp)
    · rename_i xex user st1 hins xopt role hrole
      simp only [Except.ok.injEq, Prod.mk.injEq] at h
      obtain ⟨hres, hst⟩ := h
      obtain ⟨huser, hst1⟩ := insertUser_ok _ _ _ _ _ _ _ hins
      subst huser hst1 hst
      refine ⟨role, ?_, ?_, ?_, ?_, ?_, ?_, ?_⟩
      · have := List.mem_of_find?_eq_some hrole
        simpa using this
      · have := List.find?_some hrole
        simpa using this
      · simp [getSessionExpirationDate]
      · simp [getSessionExpirationDate]
      · simp [getSessionExpirationDate]
      · simp [getSessionExpirationDate]
      · exact hres.symm

/-- C5: a successful `signup` yields a store containing the new user with
lowercased email and username, a password row for that user whose hash
verifies against the submitted password, a role assignment linking the user
to a role named "user" present in the starting store, and a session
(returned to the caller) expiring exactly 30 days after the creation
instant. -/
theorem signup_creates_rows (newUserId newSessionId email username : String)
    (name : Option String) (password : String) (now : Nat) (st : DbState)
    (res : SessionResult) (st' : DbState)
    (h : signup newUserId newSessionId email username name password now st =
      (.ok res, st')) :
    ∃ role, role ∈ st.roles ∧ role.name = "user" ∧
      UserRow.mk newUserId (toLowerCase email) (toLowerCase username) name ∈ st'.users ∧
      (∃ pw, PasswordRow.mk pw newUserId ∈ st'.passwords ∧
        bcryptCompare password pw = true) ∧
      RoleUserRow.mk role.id newUserId ∈ st'.rolesToUsers ∧
      SessionRow.mk res.id res.expirationDate newUserId ∈ st'.sessions ∧
      res.id = newSessionId ∧
      res.expirationDate = now + 30 * 24 * 60 * 60 * 1000 := by
  have hbody : signupTx newUserId newSessionId email username name
      (getPasswordHash password) now st = .ok (res, st') := by
    unfold signup runTransaction at h
    split at h
    · rename_i a st2 hb
      simp only [Prod.mk.injEq, Except.ok.injEq] at h
      rw [hb, h.1, h.2]
    · exact absurd h (by simp)
  obtain ⟨role, hr1, hr2, hu, hp, hru, hs, hres⟩ :=
    signupTx_ok_spec _ _ _ _ _ _ _ _ _ _ hbody
  subst hres
  refine ⟨role, hr1, hr2, hu,
    ⟨getPasswordHash password, hp, by simp [bcryptCompare, getPasswordHash]⟩,
    hru, hs, rfl, by norm_num [SESSION_EXPIRATION_TIME]⟩

/-- C5 witness: a concrete successful signup on the seeded store. -/
theorem signup_creates_rows_witness :
    ∃ role, role ∈ stSeed.roles ∧ role.name = "user" ∧
      UserRow.mk "u1" (toLowerCase "A@B.com") (toLowerCase "Alice") none ∈
        stSeedAfterSignup.users ∧
      (∃ pw, PasswordRow.mk pw "u1" ∈ stSeedAfterSignup.passwords ∧
        bcryptCompare "pw" pw = true) ∧
      RoleUserRow.mk role.id "u1" ∈ stSeedAfterSignup.rolesToUsers ∧
      SessionRow.mk (SessionResult.mk "s1" 2592000000).id
          (SessionResult.mk "s1" 2592000000).expirationDate "u1" ∈
        stSeedAfterSignup.sessions ∧
      (SessionResult.mk "s1" 2592000000).id = "s1" ∧
      (SessionResult.mk "s1" 2592000000).expirationDate =
        0 + 30 * 24 * 60 * 60 * 1000 :=
  signup_creates_rows "u1" "s1" "A@B.com" "Alice" none "pw" 0 stSeed
    ⟨"s1", 2592000000⟩ stSeedAfterSignup (by rfl)

/-- C6: signup is all-or-nothing.  When the seed role named "user" is absent
— even though the user insert itself succeeds (the email and username are
free) — the transaction throws at the role lookup and the store is returned
exactly as it was: no User, Password, role-assignment or Session row
persists. -/
theorem signup_rolls_back_on_missing_role
    (newUserId newSessionId email username : String) (name : Option String)
    (password : String) (now : Nat) (st : DbState)
    (hrole : st.roles.find? (fun r => r.name == "user") = none)
    (hemail : st.users.any (fun u => u.email == (toLowerCase email)) = false)
    (husername : st.users.any (fun u => u.username == (toLowerCase username)) = false) :
    signup newUserId newSessionId email username name password now st =
      (.error "Failed to find user role", st) := by
  simp [signup, runTransaction, signupTx, insertUser, hemail, husername, hrole]

/-- C6 witness: the theorem applied to the empty store (no "user" role). -/
theorem signup_rolls_back_on_missing_role_witness :
    signup "u1" "s1" "a@b.com" "alice" none "pw" 0 stEmpty =
      (.error "Failed to find user role", stEmpty) :=
  signup_rolls_back_on_missing_role "u1" "s1" "a@b.com" "alice" none "pw" 0
    stEmpty (by rfl) (by rfl) (by rfl)

/-- C2 amended: when an avatar URL is supplied and the download fails, the
signup does NOT complete — the download error propagates out of the
transaction, which rolls back, so the store is returned exactly as it was
(no User, role-assignment, Connection, UserImage or Session row persists)
and no session is returned.  The hypotheses make the failure attributable to
the download alone: the email, username and provider identity are free and
the "user" role exists. -/
theorem signupWithConnection_download_failure_rolls_back
    (newUserId newConnectionId newImageId newSessionId email username : String)
    (name : Option String) (providerId providerName url err : String)
    (now : Nat) (st : DbState)
    (hemail : st.users.any (fun u => u.email == toLowerCase email) = false)
    (husername : st.users.any (fun u => u.username == toLowerCase username) = false)
    (hrole : ∃ role, st.roles.find? (fun r => r.name == "user") = some role)
    (hconn : st.connections.any
      (fun c => c.providerName == providerName && c.providerId == providerId) =
      false) :
    signupWithConnection newUserId newConnectionId newImageId newSessionId
        email username name providerId providerName (some url) (.error err)
        now st =
      (.error err, st) := by
  obtain ⟨role, hrole⟩ := hrole
  simp [signupWithConnection, runTransaction, signupWithConnectionTx,
    insertUser, insertConnection, hemail, husername, hrole, hconn]

/-- C2 amended witness: the theorem applied to the seeded store. -/
theorem signupWithConnection_download_failure_rolls_back_witness :
    signupWithConnection "u1" "c1" "i1" "s1" "a@b.com" "alice" none "pid1"
        "github" (some "https://example.com/a.png") (.error "download failed")
        0 stSeed =
      (.error "download failed", stSeed) :=
  signupWithConnection_download_failure_rolls_back "u1" "c1" "i1" "s1"
    "a@b.com" "alice" none "pid1" "github" "https://example.com/a.png"
    "download failed" 0 stSeed (by rfl) (by rfl) ⟨⟨"r1", "user"⟩, by rfl⟩
    (by rfl)

/-- C7: deleting a user removes the user row and every dependent row — its
password, sessions, connections, role assignments, user image and notes —
and, transitively, the images of its notes; assuming every note image
referenced an existing note beforehand, afterwards no row in any dependent
table references the deleted user id, and every surviving note image still
references a surviving note (zero orphans). -/
theorem deleteUser_no_orphans (uid : String) (st : DbState)
    (hni : ∀ ni ∈ st.noteImages, ∃ n ∈ st.notes, n.id = ni.noteId) :
    (∀ u ∈ (deleteUser uid st).users, u.id ≠ uid) ∧
    (∀ p ∈ (deleteUser uid st).passwords, p.userId ≠ uid) ∧
    (∀ s ∈ (deleteUser uid st).sessions, s.userId ≠ uid) ∧
    (∀ c ∈ (deleteUser uid st).connections, c.userId ≠ uid) ∧
    (∀ ru ∈ (deleteUser uid st).rolesToUsers, ru.userId ≠ uid) ∧
    (∀ i ∈ (deleteUser uid st).userImages, i.userId ≠ uid) ∧
    (∀ n ∈ (deleteUser uid st).notes, n.ownerId ≠ uid) ∧
    (∀ ni ∈ (deleteUser uid st).noteImages,
      ∃ n ∈ (deleteUser uid st).notes, n.id = ni.noteId ∧ n.ownerId ≠ uid) := by
  refine ⟨?_, ?_, ?_, ?_, ?_, ?_, ?_, ?_⟩
  · intro x hx
    simp only [deleteUser, List.mem_filter, Bool.not_eq_true',
      beq_eq_false_iff_ne] at hx
    exact hx.2
  · intro x hx
    simp only [deleteUser, List.mem_filter, Bool.not_eq_true',
      beq_eq_false_iff_ne] at hx
    exact hx.2
  · intro x hx
    simp only [deleteUser, List.mem_filter, Bool.not_eq_true',
      beq_eq_false_iff_ne] at hx
    exact hx.2
  · intro x hx
    simp only [deleteUser, List.mem_filter, Bool.not_eq_true',
      beq_eq_false_iff_ne] at hx
    exact hx.2
  · intro x hx
    simp only [deleteUser, List.mem_filter, Bool.not_eq_true',
      beq_eq_false_iff_ne] at hx
    exact hx.2
  · intro x hx
    simp only [deleteUser, List.mem_filter, Bool.not_eq_true',
      beq_eq_false_iff_ne] at hx
    exact hx.2
  · intro x hx
    simp only [deleteUser, List.mem_filter, Bool.not_eq_true',
      beq_eq_false_iff_ne] at hx
    exact hx.2
  · intro ni hmemni
    simp only [deleteUser, List.mem_filter, Bool.not_eq_true'] at hmemni
    obtain ⟨hmem, hdead⟩ := hmemni
    obtain ⟨n, hn, hid⟩ := hni ni hmem
    have howner : n.ownerId ≠ uid := by
      intro contra
      have hnf : n ∈ st.notes.filter (fun m => m.ownerId == uid) :=
        List.mem_filter.mpr ⟨hn, by simp [contra]⟩
      have hany : (st.notes.filter (fun m => m.ownerId == uid)).any
          (fun m => m.id == ni.noteId) = true :=
        List.any_eq_true.mpr ⟨n, hnf, by simp [hid]⟩
      rw [hany] at hdead
      exact absurd hdead (by simp)
    refine ⟨n, ?_, hid, howner⟩
    simp only [deleteUser, List.mem_filter, Bool.not_eq_true',
      beq_eq_false_iff_ne]
    exact ⟨hn, howner⟩

/-- C7 witness: the theorem applied to the populated store `stCascade`,
whose note images all reference existing notes. -/
theorem deleteUser_no_orphans_witness :
    (∀ u ∈ (deleteUser "u1" stCascade).users, u.id ≠ "u1") ∧
    (∀ p ∈ (deleteUser "u1" stCascade).passwords, p.userId ≠ "u1") ∧
    (∀ s ∈ (deleteUser "u1" stCascade).sessions, s.userId ≠ "u1") ∧
    (∀ c ∈ (deleteUser "u1" stCascade).connections, c.userId ≠ "u1") ∧
    (∀ ru ∈ (deleteUser "u1" stCascade).rolesToUsers, ru.userId ≠ "u1") ∧
    (∀ i ∈ (deleteUser "u1" stCascade).userImages, i.userId ≠ "u1") ∧
    (∀ n ∈ (deleteUser "u1" stCascade).notes, n.ownerId ≠ "u1") ∧
    (∀ ni ∈ (deleteUser "u1" stCascade).noteImages,
      ∃ n ∈ (deleteUser "u1" stCascade).notes,
        n.id = ni.noteId ∧ n.ownerId ≠ "u1") :=
  deleteUser_no_orphans "u1" stCascade (by decide)

/-- C8: in the change-email flow, when the recent-verification guard fails
nothing happens (the call throws and neither updates the store nor sends a
notice); on the success path the acting user's email is updated to the
pending new value, and the change notice is sent to the address the account
had before the update — never to the new address (when they differ). -/
theorem changeEmail_requires_verification_and_notifies_old :
    ∀ (pendingNewEmail : Option String) (targetUserId : String) (st : DbState),
      handleChangeEmailVerification false pendingNewEmail targetUserId st =
        .error "requireRecentVerification" ∧
      (∀ newEmail user out st' sent,
        st.users.find? (fun u => u.id == targetUserId) = some user →
        handleChangeEmailVerification true (some newEmail) targetUserId st =
          .ok (out, st', sent) →
        out = .success newEmail ∧
        sent = [EmailMsg.mk user.email "Epic Stack email changed"] ∧
        (user.email ≠ newEmail → ∀ m ∈ sent, m.toAddr ≠ newEmail) ∧
        (∀ u' ∈ st'.users, u'.id = targetUserId → u'.email = newEmail)) := by
  intro pendingNewEmail targetUserId st
  constructor
  · rfl
  · intro newEmail user out st' sent hfind hrun
    unfold handleChangeEmailVerification at hrun
    rw [hfind] at hrun
    simp only [Bool.not_true, Bool.false_eq_true, if_false,
      Except.ok.injEq, Prod.mk.injEq] at hrun
    obtain ⟨hout, hst, hsent⟩ := hrun
    refine ⟨hout.symm, hsent.symm, ?_, ?_⟩
    · intro hne m hm
      rw [← hsent] at hm
      simp only [List.mem_singleton] at hm
      rw [hm]
      exact hne
    · intro u' hu' hid
      rw [← hst] at hu'
      simp only [List.mem_map] at hu'
      obtain ⟨u0, hu0, hfu⟩ := hu'
      by_cases h0 : u0.id = targetUserId
      · rw [← hfu]
        simp [h0]
      · rw [← hfu] at hid
        simp [h0] at hid

/-- C8 witness: the theorem applied to the two-user store — the guard
failure throws, and the successful path changes Alice's email while
notifying her old address. -/
theorem changeEmail_requires_verification_witness :
    handleChangeEmailVerification false (some "new@x.com") "u1" stTwoUsers =
      .error "requireRecentVerification" ∧
    (ChangeEmailOutcome.success "new@x.com" =
      ChangeEmailOutcome.success "new@x.com" ∧
    [EmailMsg.mk "alice@x.com" "Epic Stack email changed"] =
      [EmailMsg.mk "alice@x.com" "Epic Stack email changed"] ∧
    ("alice@x.com" ≠ "new@x.com" →
      ∀ m ∈ [EmailMsg.mk "alice@x.com" "Epic Stack email changed"],
        m.toAddr ≠ "new@x.com") ∧
    (∀ u' ∈ stTwoUsersAfterEmailChange.users, u'.id = "u1" →
      u'.email = "new@x.com")) :=
  ⟨(changeEmail_requires_verification_and_notifies_old (some "new@x.com")
      "u1" stTwoUsers).1,
   (changeEmail_requires_verification_and_notifies_old (some "new@x.com")
      "u1" stTwoUsers).2 "new@x.com" ⟨"u1", "alice@x.com", "alice", none⟩
      (ChangeEmailOutcome.success "new@x.com") stTwoUsersAfterEmailChange
      [EmailMsg.mk "alice@x.com" "Epic Stack email changed"]
      (by rfl) (by rfl)⟩

end EpicAuth
